import Mathlib

/-!
Verification of the `thread-init` crate (src/lib.rs): a `spawn_init`
operation that lets a thread's initialization phase borrow data from the
creator.  The creator blocks on a one-shot mpsc rendezvous until a
scope-bound guard, dropped right after the init closure returns, sends
on the channel.

The development has two layers:

* a functional model of the data flow of `spawn_init`, `try_spawn`,
  `spawn`, `Guard::drop` and the mpsc channel, with panics made explicit
  as an `Outcome` value and thread-creation failure as a boolean input;
* a labelled small-step interleaving machine `Step` for one invocation,
  with the creator and the worker as the two units of execution, used for
  the ordering / happens-before / exactly-once-signal claims.
-/

namespace ThreadInit

/-- Outcome of running a closure: it either returns a value or panics
(begins unwinding) with a message. -/
inductive Outcome (α : Type) where
  | ok (a : α)
  | panicked (msg : String)
deriving DecidableEq, Repr

/-- Model of the state of one `std::sync::mpsc` channel as used here:
how many messages have been sent, and whether the `Sender` was dropped. -/
structure Channel where
  sent : Nat
  senderDropped : Bool
deriving DecidableEq, Repr

/-- `mpsc::channel()` : a fresh channel, nothing sent, sender alive. -/
def Channel.new : Channel := ⟨0, false⟩

/-- Effect of `Sender::send` on the channel state (the `Result` it
returns is ignored at the only call site, `Guard::drop`). -/
def Channel.send (c : Channel) : Channel := { c with sent := c.sent + 1 }

/-- Effect of dropping the `Sender`. -/
def Channel.dropSender (c : Channel) : Channel := { c with senderDropped := true }

/-- Result of `Receiver::recv()` once it returns: `Ok(())` for a
delivered message, `Err(RecvError)` for a channel whose sender was
dropped without sending. -/
inductive RecvRes where
  | received
  | disconnected
deriving DecidableEq, Repr

/-- `Receiver::recv()` stops blocking exactly when a message was sent or
the sender end was dropped. -/
def Channel.recvReady (c : Channel) : Bool := 0 < c.sent || c.senderDropped

/-- The value `recv()` returns once ready: a sent message wins over a
disconnection. -/
def Channel.recvResult (c : Channel) : RecvRes :=
  if 0 < c.sent then .received else .disconnected

/-- Model of `Guard` (src/lib.rs line 88): it owns the sender half. -/
structure Guard where
  sender : Channel

/-- Effect on the channel of dropping a `Guard`: `Drop::drop` runs
`let _ = self.0.send(())` (lines 90-94) and then the owned `Sender`
itself is dropped. -/
def Guard.dropEffect (c : Channel) : Channel := (c.send).dropSender

/-- Model of the body of the spawned thread (src/lib.rs lines 54-60):
`let g = { let _guard = Guard(sender); f() }; g()`.  The init closure
`f` is represented by its outcome `fOut`: a panic, or the continuation
closure `g`, itself represented by its outcome.  On both the normal and
the unwinding exit of the inner block the guard is dropped; the thread's
result is `g`'s outcome on the normal path and `f`'s panic otherwise. -/
def workerBody {T : Type} (fOut : Outcome (Outcome T)) (c : Channel) :
    Channel × Outcome T :=
  match fOut with
  | .panicked m => (Guard.dropEffect c, .panicked m)
  | .ok gOut => (Guard.dropEffect c, gOut)

/-- Model of `std::thread::JoinHandle<T>`: it carries the outcome of the
thread it represents. -/
structure JoinHandle (T : Type) where
  result : Outcome T
deriving DecidableEq, Repr

/-- Error surfaced by `JoinHandle::join` when the thread panicked. -/
inductive JoinError where
  | execPanicked (msg : String)
deriving DecidableEq, Repr

/-- `JoinHandle::join()` : the thread's value, or the panic it died with. -/
def JoinHandle.join {T : Type} (h : JoinHandle T) : Except JoinError T :=
  match h.result with
  | .ok v => .ok v
  | .panicked m => .error (.execPanicked m)

/-- Model of `std::io::Error` as returned by a failed thread spawn. -/
inductive CreationError where
  | osError
deriving DecidableEq, Repr

/-- Events on the creator's own control path through `spawn_init`,
in program order (src/lib.rs lines 52-63). -/
inductive CreatorEv where
  | chanCreate
  | spawnAttempt (ok : Bool)
  | recvCall
  | recvRet (r : RecvRes)
deriving DecidableEq, Repr

/-- Model of `std::thread::Builder` (no configuration is used). -/
structure Builder where
deriving DecidableEq, Repr

/-- `thread::Builder::new()`. -/
def Builder.new : Builder := ⟨⟩

/-- Model of `Builder::spawn_init` (src/lib.rs lines 46-64).  `fails`
says whether the underlying `spawn_unchecked` fails; `fOut` represents
the init closure by its outcome.  Returned are the creator's event
sequence and the creator's return value.  Note that line 62,
`let _ = receiver.recv()`, runs on both branches: when spawning fails
the closure (and with it the captured sender) is dropped inside the
failing `spawn_unchecked` call, so `recv()` returns `Err(RecvError)`
at once; when spawning succeeds the guard's drop sends, so `recv()`
returns `Ok(())` once the init phase is over. -/
def Builder.spawn_init {T : Type} (_b : Builder) (fails : Bool)
    (fOut : Outcome (Outcome T)) :
    List CreatorEv × Except CreationError (JoinHandle T) :=
  let c0 := Channel.new
  if fails then
    let c1 := c0.dropSender
    let r := c1.recvResult
    ([.chanCreate, .spawnAttempt false, .recvCall, .recvRet r],
      .error .osError)
  else
    let (c1, res) := workerBody fOut c0
    let r := c1.recvResult
    ([.chanCreate, .spawnAttempt true, .recvCall, .recvRet r],
      .ok ⟨res⟩)

/-- Model of `try_spawn` (src/lib.rs lines 68-75): exactly
`thread::Builder::new().spawn_init(f)`. -/
def try_spawn {T : Type} (fails : Bool) (fOut : Outcome (Outcome T)) :
    List CreatorEv × Except CreationError (JoinHandle T) :=
  Builder.new.spawn_init fails fOut

/-- The diagnostic message passed to `expect` in `spawn`
(src/lib.rs line 84). -/
def spawningFailedMsg : String := "Spawning failed"

/-- Model of `Result::expect(msg)`: unwrap an `Ok`, panic with the
diagnostic message on an `Err`. -/
def expectMsg {ε α : Type} (msg : String) : Except ε α → Outcome α
  | .ok a => .ok a
  | .error _ => .panicked msg

/-- Model of `spawn` (src/lib.rs lines 78-85):
`try_spawn(f).expect("Spawning failed")`.  The creator either obtains
the handle or panics; it never returns an error value. -/
def spawn {T : Type} (fails : Bool) (fOut : Outcome (Outcome T)) :
    List CreatorEv × Outcome (JoinHandle T) :=
  let p := try_spawn fails fOut
  (p.1, expectMsg spawningFailedMsg p.2)

/-- Embedding of the creator's code after the wait (src/lib.rs lines
62-63): `let _ = receiver.recv(); thread` — the value `recv` returned is
discarded and the `spawn_unchecked` result is returned unchanged. -/
def creatorAfterRecv {T : Type} (_r : RecvRes)
    (thread : Except CreationError (JoinHandle T)) :
    Except CreationError (JoinHandle T) :=
  thread

/-! ## The interleaving machine

One invocation of `spawn_init`, with a successful thread creation.  The
two units of execution are the creator and the worker; `nF` is the
number of accesses the init closure `f` performs on the borrowed data,
and `fp` says whether `f` panics at its end instead of returning
normally.  The channel is reduced to the one bit `signaled` that the
creator's blocking `recv` observes. -/

/-- Creator program counter: before the `spawn_unchecked` call, blocked
in `recv`, or resumed (recv returned, `spawn_init` returns the handle). -/
inductive CPC where
  | beforeSpawn
  | waiting
  | resumed
deriving DecidableEq, Repr

/-- Worker program counter: not yet started; running `f` with `k`
borrow accesses done (the guard exists from the thread's first action
on); `f` just finished (returned or began unwinding) with the guard
still alive; guard dropped, signal sent; `g` ran to completion. -/
inductive WPC where
  | idle
  | inF (k : Nat)
  | fOver
  | sigSent
  | gDone
deriving DecidableEq, Repr

/-- Global state of one invocation. -/
structure Sys where
  cpc : CPC
  wpc : WPC
  signaled : Bool
deriving DecidableEq, Repr

/-- Initial state: creator about to create the channel and spawn. -/
def Sys.start : Sys := ⟨.beforeSpawn, .idle, false⟩

/-- Labels of the machine's transitions. -/
inductive Label where
  | spawnL
  | accessL (k : Nat)
  | fEndL
  | sendL
  | runGL
  | recvL
deriving DecidableEq, Repr

/-- One transition of the system.  The creator's only suspension point
is `recv`, enabled only once `signaled` holds (the blocking semantics of
the rendezvous consumer); the send happens as the unique action between
the end of `f` and anything else the worker does (the guard drop at the
end of the inner block, src/lib.rs lines 55-58); `g` runs only if `f`
returned normally. -/
inductive Step (nF : Nat) (fp : Bool) : Sys → Label → Sys → Prop where
  | spawn (g : Bool) :
      Step nF fp ⟨.beforeSpawn, .idle, g⟩ .spawnL ⟨.waiting, .inF 0, g⟩
  | access (c : CPC) (g : Bool) (k : Nat) (h : k < nF) :
      Step nF fp ⟨c, .inF k, g⟩ (.accessL k) ⟨c, .inF (k + 1), g⟩
  | fEnd (c : CPC) (g : Bool) :
      Step nF fp ⟨c, .inF nF, g⟩ .fEndL ⟨c, .fOver, g⟩
  | sendSig (c : CPC) (g : Bool) :
      Step nF fp ⟨c, .fOver, g⟩ .sendL ⟨c, .sigSent, true⟩
  | runG (c : CPC) (g : Bool) (h : fp = false) :
      Step nF fp ⟨c, .sigSent, g⟩ .runGL ⟨c, .gDone, g⟩
  | recv (w : WPC) :
      Step nF fp ⟨.waiting, w, true⟩ .recvL ⟨.resumed, w, true⟩

/-- A run: finitely many labelled steps. -/
inductive Run (nF : Nat) (fp : Bool) : Sys → List Label → Sys → Prop where
  | refl (s : Sys) : Run nF fp s [] s
  | step {s s' s'' : Sys} {l : Label} {tr : List Label}
      (h1 : Step nF fp s l s') (h2 : Run nF fp s' tr s'') :
      Run nF fp s (l :: tr) s''

/-- A state from which no step is possible. -/
def Terminal (nF : Nat) (fp : Bool) (s : Sys) : Prop :=
  ∀ (l : Label) (s' : Sys), ¬ Step nF fp s l s'

/-- Inductive invariant of the machine: the creator is before the spawn
exactly while the worker has not started; `f` never performs more than
`nF` accesses; the signal bit is set exactly from the guard drop on;
the creator can be resumed only with the signal set; `g` completes only
when `f` did not panic. -/
def Inv (nF : Nat) (fp : Bool) (s : Sys) : Prop :=
  (s.cpc = .beforeSpawn ↔ s.wpc = .idle) ∧
  (∀ k, s.wpc = .inF k → k ≤ nF) ∧
  (s.signaled = true ↔ (s.wpc = .sigSent ∨ s.wpc = .gDone)) ∧
  (s.cpc = .resumed → s.signaled = true) ∧
  (s.wpc = .gDone → fp = false)

/-- How many of the `nF` borrow accesses the worker has performed at a
given worker program counter. -/
def accDone (nF : Nat) : WPC → Nat
  | .idle => 0
  | .inF k => k
  | .fOver => nF
  | .sigSent => nF
  | .gDone => nF

/-- How many times the signal has been sent at a given worker program
counter (the guard drop is the only send). -/
def sendsDone : WPC → Nat
  | .sigSent => 1
  | .gDone => 1
  | _ => 0

/-! ## Channel freshness across invocations

`spawn_init` opens with `let (sender, receiver) = mpsc::channel()`
(src/lib.rs line 52): every invocation allocates a fresh channel.
Allocation is modelled by a world holding a fresh-index counter and the
state of every channel allocated so far. -/

/-- A world of channels: the next fresh channel identity and the state
of each channel. -/
structure World where
  nextId : Nat
  chans : Nat → Channel

/-- `mpsc::channel()` inside one invocation of `spawn_init`: allocate a
fresh channel and return its identity. -/
def World.newChannel (w : World) : Nat × World :=
  (w.nextId,
    ⟨w.nextId + 1,
      fun i => if i = w.nextId then Channel.new else w.chans i⟩)

/-- Firing the rendezvous signal of the invocation that owns channel
`i`: the guard drop sends on that channel and drops its sender. -/
def World.signal (w : World) (i : Nat) : World :=
  { w with
      chans := fun j => if j = i then Guard.dropEffect (w.chans j) else w.chans j }

/-! ## Helper lemmas about the machine -/

/-- The invariant holds initially. -/
theorem inv_start (nF : Nat) (fp : Bool) : Inv nF fp Sys.start := by
  refine ⟨by simp [Sys.start], ?_, by simp [Sys.start], by simp [Sys.start], by simp [Sys.start]⟩
  intro k hk
  simp [Sys.start] at hk

/-- The invariant is preserved by every step. -/
theorem inv_step {nF : Nat} {fp : Bool} {s s' : Sys} {l : Label}
    (hinv : Inv nF fp s) (hs : Step nF fp s l s') : Inv nF fp s' := by
  obtain ⟨h1, h2, h3, h4, h5⟩ := hinv
  cases hs <;> refine ⟨?_, ?_, ?_, ?_, ?_⟩ <;> simp_all [Inv]
  all_goals omega

/-- The invariant is preserved along every run. -/
theorem run_inv {nF : Nat} {fp : Bool} {s s' : Sys} {tr : List Label}
    (hr : Run nF fp s tr s') (hinv : Inv nF fp s) : Inv nF fp s' := by
  induction hr with
  | refl s => exact hinv
  | step h1 _h2 ih => exact ih (inv_step hinv h1)

/-- A run whose trace contains a distinguished label splits at it. -/
theorem run_append_split {nF : Nat} {fp : Bool} {s s'' : Sys}
    {t1 t2 : List Label} {l : Label}
    (h : Run nF fp s (t1 ++ l :: t2) s'') :
    ∃ sm sm', Run nF fp s t1 sm ∧ Step nF fp sm l sm' ∧ Run nF fp sm' t2 s'' := by
  induction t1 generalizing s with
  | nil =>
    cases h with
    | step h1 h2 => exact ⟨s, _, .refl s, h1, h2⟩
  | cons a t ih =>
    cases h with
    | step h1 h2 =>
      obtain ⟨sm, sm', hr, hst, hr2⟩ := ih h2
      exact ⟨sm, sm', .step h1 hr, hst, hr2⟩

/-- Every borrow access the worker has completed by the end of a run,
beyond those already completed at its start, is recorded in the trace. -/
theorem run_access_mem {nF : Nat} {fp : Bool} {s s' : Sys} {tr : List Label}
    (hr : Run nF fp s tr s') :
    ∀ k, accDone nF s.wpc ≤ k → k < accDone nF s'.wpc → Label.accessL k ∈ tr := by
  induction hr with
  | refl s => intro k hk1 hk2; omega
  | step h1 _h2 ih =>
    intro k hk1 hk2
    cases h1 with
    | spawn g =>
      exact List.mem_cons_of_mem _ (ih k (by simp [accDone]) hk2)
    | access c g j h =>
      simp only [accDone] at hk1
      rcases Nat.eq_or_lt_of_le hk1 with h' | h'
      · simp [h']
      · exact List.mem_cons_of_mem _ (ih k (by simp [accDone]; omega) hk2)
    | fEnd c g =>
      exact List.mem_cons_of_mem _ (ih k (by simp_all [accDone]) hk2)
    | sendSig c g =>
      exact List.mem_cons_of_mem _ (ih k (by simp_all [accDone]) hk2)
    | runG c g h =>
      exact List.mem_cons_of_mem _ (ih k (by simp_all [accDone]) hk2)
    | recv w =>
      exact List.mem_cons_of_mem _ (ih k (by simp_all [accDone]) hk2)

/-- Once the guard has been dropped (signal sent), no further borrow
access by the init closure can appear in any continuation of the run. -/
theorem run_no_access_late {nF : Nat} {fp : Bool} {s s' : Sys} {tr : List Label}
    (hr : Run nF fp s tr s')
    (hw : s.wpc = .sigSent ∨ s.wpc = .gDone) :
    ∀ k, Label.accessL k ∉ tr := by
  induction hr with
  | refl s => intro k; simp
  | step h1 _h2 ih =>
    intro k
    cases h1 with
    | spawn g => simp at hw
    | access c g j h => simp at hw
    | fEnd c g => simp at hw
    | sendSig c g => simp at hw
    | runG c g h =>
      have := ih (Or.inr rfl) k
      simp_all
    | recv w =>
      have := ih (by simpa using hw) k
      simp_all

/-- The number of sends recorded in a run's trace is the difference of
the send counts at its endpoints. -/
theorem run_send_count {nF : Nat} {fp : Bool} {s s' : Sys} {tr : List Label}
    (hr : Run nF fp s tr s') :
    tr.count Label.sendL + sendsDone s.wpc = sendsDone s'.wpc := by
  induction hr with
  | refl s => simp
  | step h1 _h2 ih =>
    cases h1 <;> simp_all [List.count_cons, sendsDone]

/-- In a reachable terminal state the creator has been resumed, the
guard has been dropped, and the signal is set. -/
theorem terminal_resumed {nF : Nat} {fp : Bool} {s : Sys}
    (hinv : Inv nF fp s) (ht : Terminal nF fp s) :
    s.cpc = .resumed ∧ (s.wpc = .sigSent ∨ s.wpc = .gDone) ∧ s.signaled = true := by
  obtain ⟨c, w, b⟩ := s
  obtain ⟨h1, h2, h3, h4, h5⟩ := hinv
  cases w with
  | idle =>
    have hc : c = .beforeSpawn := h1.mpr rfl
    subst hc
    exact absurd (Step.spawn b) (ht _ _)
  | inF k =>
    have hk : k ≤ nF := h2 k rfl
    rcases Nat.lt_or_ge k nF with h | h
    · exact absurd (Step.access c b k h) (ht _ _)
    · have hkk : k = nF := Nat.le_antisymm hk h
      subst hkk
      exact absurd (Step.fEnd c b) (ht _ _)
  | fOver =>
    exact absurd (Step.sendSig c b) (ht _ _)
  | sigSent =>
    have hb : b = true := h3.mpr (Or.inl rfl)
    subst hb
    cases c with
    | beforeSpawn => simp at h1
    | waiting => exact absurd (Step.recv .sigSent) (ht _ _)
    | resumed => exact ⟨rfl, Or.inl rfl, rfl⟩
  | gDone =>
    have hb : b = true := h3.mpr (Or.inr rfl)
    subst hb
    cases c with
    | beforeSpawn => simp at h1
    | waiting => exact absurd (Step.recv .gDone) (ht _ _)
    | resumed => exact ⟨rfl, Or.inr rfl, rfl⟩

/-! ## The claims -/

/-- C1: in every run of one `spawn_init` invocation, by the time the
creator's wait on the rendezvous consumer returns (`recvL`), every
borrow access of the init closure `F` has already happened, and no
borrow access can happen afterwards: the creator cannot observe `F`
still running once its call returns, so it is safe for it to mutate or
drop the borrowed data. -/
theorem claim1_happens_before {nF : Nat} {fp : Bool} {tr : List Label} {s : Sys}
    (hr : Run nF fp Sys.start tr s) {t1 t2 : List Label}
    (hsplit : tr = t1 ++ Label.recvL :: t2) :
    (∀ k, k < nF → Label.accessL k ∈ t1) ∧ (∀ k, Label.accessL k ∉ t2) := by
  subst hsplit
  obtain ⟨sm, sm', hr1, hst, hr2⟩ := run_append_split hr
  have hinv : Inv nF fp sm := run_inv hr1 (inv_start nF fp)
  cases hst with
  | recv w =>
    have hw : w = .sigSent ∨ w = .gDone := by
      have := hinv.2.2.1.mp
      simpa using this rfl
    constructor
    · intro k hk
      refine run_access_mem hr1 k (by simp [Sys.start, accDone]) ?_
      rcases hw with h | h <;> simp [h, accDone, hk]
    · intro k
      exact run_no_access_late hr2 (by simpa using hw) k

/-- Witness for C1: a concrete complete run with one borrow access; the
access lies before the wait's return and nothing accesses afterwards. -/
theorem claim1_happens_before_witness :
    (∀ k, k < 1 →
      Label.accessL k ∈ [Label.spawnL, Label.accessL 0, Label.fEndL, Label.sendL]) ∧
    (∀ k, Label.accessL k ∉ [Label.runGL]) :=
  claim1_happens_before
    (Run.step (Step.spawn false)
      (Run.step (Step.access .waiting false 0 (by decide))
        (Run.step (Step.fEnd .waiting false)
          (Run.step (Step.sendSig .waiting false)
            (Run.step (Step.recv .sigSent)
              (Run.step (Step.runG .resumed true rfl)
                (Run.refl ⟨.resumed, .gDone, true⟩)))))))
    rfl

/-- C2: in every reachable state of an invocation, (a) when the worker
has just finished the init closure `F` (program counter `fOver`), the
only possible transition of the whole system is the guard drop firing
the signal — the guard is destroyed immediately after `F` returns —
and (b) any step that runs the continuation `G` happens from a state
where the signal has already been fired: the guard's scope is exactly
the invocation of `F`. -/
theorem claim2_guard_scope {nF : Nat} {fp : Bool} {tr : List Label} {s : Sys}
    (hr : Run nF fp Sys.start tr s) :
    (s.wpc = .fOver → ∀ l s', Step nF fp s l s' →
        l = .sendL ∧ s'.wpc = .sigSent ∧ s'.signaled = true) ∧
    (∀ l s', Step nF fp s l s' → l = .runGL → s.signaled = true) := by
  have hinv := run_inv hr (inv_start nF fp)
  obtain ⟨h1, h2, h3, h4, h5⟩ := hinv
  constructor
  · intro hf l s' hst
    cases hst <;> simp_all
  · intro l s' hst hl
    cases hst <;> simp_all

/-- Witness for C2: at the concrete reachable state from which the
continuation `G` is about to run, the signal has already been fired. -/
theorem claim2_guard_scope_witness :
    (⟨.resumed, .sigSent, true⟩ : Sys).signaled = true :=
  (claim2_guard_scope
    (Run.step (Step.spawn false)
      (Run.step (Step.fEnd .waiting false)
        (Run.step (Step.sendSig .waiting false)
          (Run.step (Step.recv .sigSent)
            (Run.refl ⟨.resumed, .sigSent, true⟩)))))).2
    Label.runGL ⟨.resumed, .gDone, true⟩ (Step.runG .resumed true rfl) rfl

/-- C3: along any run of an invocation the signal is sent at most once,
and every complete (terminal) run — whether the init closure returned
normally (`fp = false`) or panicked (`fp = true`) — contains exactly one
send: the guard's destruction fires the signal exactly once on every
exit path of the scope it guards. -/
theorem claim3_signal_exactly_once {nF : Nat} {fp : Bool} {tr : List Label} {s : Sys}
    (hr : Run nF fp Sys.start tr s) :
    tr.count Label.sendL ≤ 1 ∧
    (Terminal nF fp s → tr.count Label.sendL = 1) := by
  have hc := run_send_count hr
  have hinv := run_inv hr (inv_start nF fp)
  have hc0 : tr.count Label.sendL = sendsDone s.wpc := by
    rw [← hc]
    simp [Sys.start, sendsDone]
  constructor
  · have hb : sendsDone s.wpc ≤ 1 := by
      cases hw : s.wpc <;> simp [sendsDone]
    omega
  · intro ht
    obtain ⟨_, hw, _⟩ := terminal_resumed hinv ht
    rcases hw with h | h <;> simp [hc0, h, sendsDone]

/-- Witness for C3: a concrete complete run on the panic path of the
init closure contains exactly one send. -/
theorem claim3_signal_exactly_once_witness :
    List.count Label.sendL [Label.spawnL, Label.fEndL, Label.sendL, Label.recvL] = 1 :=
  (claim3_signal_exactly_once
    ((Run.step (Step.spawn false)
      (Run.step (Step.fEnd .waiting false)
        (Run.step (Step.sendSig .waiting false)
          (Run.step (Step.recv .sigSent)
            (Run.refl ⟨.resumed, .sigSent, true⟩))))) :
      Run 0 true Sys.start
        [Label.spawnL, Label.fEndL, Label.sendL, Label.recvL]
        ⟨.resumed, .sigSent, true⟩)).2
    (by
      intro l s' h
      cases h with
      | runG c g hfp => exact absurd hfp (by decide))

/-- C4: no deadlock on init failure.  Operationally: when the init
closure panics (`fp = true`), every reachable terminal state of the
invocation still has the creator resumed — its blocking wait unblocked.
Functionally: `try_spawn` on a panicking init closure still returns
`Ok(handle)`, and the failure surfaces only when the handle is joined. -/
theorem claim4_no_deadlock_on_init_failure :
    (∀ (n : Nat) (tr : List Label) (s : Sys),
        Run n true Sys.start tr s → Terminal n true s → s.cpc = .resumed) ∧
    (∀ (T : Type) (m : String),
        (try_spawn (T := T) false (Outcome.panicked m)).2 =
          .ok ⟨Outcome.panicked m⟩ ∧
        JoinHandle.join (⟨Outcome.panicked m⟩ : JoinHandle T) =
          .error (.execPanicked m)) := by
  constructor
  · intro n tr s hr ht
    exact (terminal_resumed (run_inv hr (inv_start n true)) ht).1
  · intro T m
    exact ⟨rfl, rfl⟩

/-- Witness for C4: a concrete terminal run with a panicking init
closure ends with the creator resumed. -/
theorem claim4_no_deadlock_on_init_failure_witness :
    (⟨.resumed, .sigSent, true⟩ : Sys).cpc = .resumed :=
  claim4_no_deadlock_on_init_failure.1 0
    [Label.spawnL, Label.fEndL, Label.sendL, Label.recvL]
    ⟨.resumed, .sigSent, true⟩
    (Run.step (Step.spawn false)
      (Run.step (Step.fEnd .waiting false)
        (Run.step (Step.sendSig .waiting false)
          (Run.step (Step.recv .sigSent)
            (Run.refl ⟨.resumed, .sigSent, true⟩)))))
    (by
      intro l s' h
      cases h with
      | runG c g hfp => exact absurd hfp (by decide))

/-- C5: the consumer's wait returns exactly when a message was sent or
the producer end was dropped without sending; in the first case it
yields a received message, in the second a disconnection error; and the
creator's code after the wait (src/lib.rs lines 62-63) is the same
function of the remaining state whichever of the two values came back —
the error is ignored with no observable difference. -/
theorem claim5_wait_two_cases_ignored :
    (∀ c : Channel, c.recvReady = true ↔ (0 < c.sent ∨ c.senderDropped = true)) ∧
    (∀ c : Channel, 0 < c.sent → c.recvResult = .received) ∧
    (∀ c : Channel, c.sent = 0 → c.senderDropped = true →
        c.recvResult = .disconnected) ∧
    (∀ (T : Type) (r1 r2 : RecvRes)
        (th : Except CreationError (JoinHandle T)),
        creatorAfterRecv r1 th = creatorAfterRecv r2 th) := by
  refine ⟨?_, ?_, ?_, ?_⟩
  · intro c
    simp [Channel.recvReady]
  · intro c h
    simp [Channel.recvResult, h]
  · intro c h1 h2
    simp [Channel.recvResult, h1]
  · intro T r1 r2 th
    rfl

/-- Witness for C5: the two concrete channel states in which the wait
returns — one with a message sent, one with the sender dropped. -/
theorem claim5_wait_two_cases_ignored_witness :
    Channel.recvResult ⟨1, false⟩ = .received ∧
    Channel.recvResult ⟨0, true⟩ = .disconnected :=
  ⟨claim5_wait_two_cases_ignored.2.1 ⟨1, false⟩ (by decide),
    claim5_wait_two_cases_ignored.2.2.1 ⟨0, true⟩ rfl rfl⟩

/-- C6: result round-trip.  When the continuation closure `G` completes
normally with `v`, the handle returned by `try_spawn`/`spawn` joins to
exactly `Ok v`; when `G` panics instead, joining yields the failure, not
a stale or default value. -/
theorem claim6_result_round_trip (T : Type) (v : T) (m : String) :
    (try_spawn false (Outcome.ok (Outcome.ok v))).2 = .ok ⟨Outcome.ok v⟩ ∧
    (spawn false (Outcome.ok (Outcome.ok v))).2 = .ok ⟨Outcome.ok v⟩ ∧
    JoinHandle.join (⟨Outcome.ok v⟩ : JoinHandle T) = .ok v ∧
    (try_spawn (T := T) false (Outcome.ok (Outcome.panicked m))).2 =
      .ok ⟨Outcome.panicked m⟩ ∧
    JoinHandle.join (⟨Outcome.panicked m⟩ : JoinHandle T) =
      .error (.execPanicked m) :=
  ⟨rfl, rfl, rfl, rfl, rfl⟩

/-- C7 counterexample: the claim says that on a worker-creation failure
the creator's wait on the rendezvous consumer is never reached; but line
62 of src/lib.rs, `let _ = receiver.recv()`, is unconditional, so on the
failing branch the `recv` call is still executed — here at the concrete
input where spawning fails with an init closure returning `0`. -/
theorem claim7_wait_reached_counterexample :
    CreatorEv.recvCall ∈ (try_spawn (T := Nat) true (Outcome.ok (Outcome.ok 0))).1 := by
  decide

/-- C7 as amended: if worker creation fails, `try_spawn` reports the
creation error synchronously and no worker exists; the creator's `recv`
on the rendezvous consumer is still executed, but it returns immediately
with a disconnection error rather than blocking, because the producer
end was dropped together with the never-run worker closure. -/
theorem claim7_creation_failure_synchronous (T : Type) (fOut : Outcome (Outcome T)) :
    (try_spawn true fOut).2 = .error .osError ∧
    (try_spawn true fOut).1 =
      [CreatorEv.chanCreate, CreatorEv.spawnAttempt false, CreatorEv.recvCall,
        CreatorEv.recvRet .disconnected] ∧
    (Channel.new.dropSender).recvReady = true :=
  ⟨rfl, rfl, rfl⟩

/-- C8: on worker-creation failure `spawn` does not return an error
value — it panics with the diagnostic message `"Spawning failed"`
(the process-terminating path of `expect`); on creation success it
returns exactly the handle `try_spawn` returns. -/
theorem claim8_spawn_fatal_on_failure (T : Type) (fOut : Outcome (Outcome T)) :
    (spawn true fOut).2 = Outcome.panicked spawningFailedMsg ∧
    spawningFailedMsg = "Spawning failed" ∧
    (∀ h : JoinHandle T,
        (try_spawn false fOut).2 = .ok h → (spawn false fOut).2 = .ok h) := by
  refine ⟨rfl, rfl, ?_⟩
  intro h hh
  simp [spawn, expectMsg, hh]

/-- Witness for C8: at a concrete successful creation, `spawn` returns
the very handle `try_spawn` returns. -/
theorem claim8_spawn_fatal_on_failure_witness :
    (spawn (T := Nat) false (Outcome.ok (Outcome.ok 3))).2 = .ok ⟨Outcome.ok 3⟩ :=
  (claim8_spawn_fatal_on_failure Nat (Outcome.ok (Outcome.ok 3))).2.2
    ⟨Outcome.ok 3⟩ rfl

/-- C9: every invocation of `spawn_init` opens with `mpsc::channel()`
(src/lib.rs line 52), modelled as allocation of a fresh channel in a
world of channels.  Two successive invocations obtain distinct channel
identities, and firing the rendezvous signal of one invocation leaves
every other invocation's channel — in particular its readiness to
unblock that invocation's creator — unchanged. -/
theorem claim9_fresh_independent_channels (w : World) :
    (w.newChannel).1 = w.nextId ∧
    ((w.newChannel).2).nextId = w.nextId + 1 ∧
    ((w.newChannel).2).chans (w.newChannel).1 = Channel.new ∧
    (w.newChannel).1 ≠ (((w.newChannel).2).newChannel).1 ∧
    (∀ i j : Nat, i ≠ j → (w.signal i).chans j = w.chans j) ∧
    (∀ i j : Nat, i ≠ j →
        ((w.signal i).chans j).recvReady = (w.chans j).recvReady) := by
  refine ⟨rfl, rfl, by simp [World.newChannel], by simp [World.newChannel], ?_, ?_⟩
  · intro i j hij
    simp [World.signal, Ne.symm hij]
  · intro i j hij
    simp [World.signal, Ne.symm hij]

/-- Witness for C9: in a concrete world, firing the signal of the
invocation owning channel 0 does not change channel 1, so it cannot
unblock the creator waiting on channel 1. -/
theorem claim9_fresh_independent_channels_witness :
    ((World.signal ⟨2, fun _ => Channel.new⟩ 0).chans 1).recvReady =
      ((⟨2, fun _ => Channel.new⟩ : World).chans 1).recvReady :=
  (claim9_fresh_independent_channels ⟨2, fun _ => Channel.new⟩).2.2.2.2.2 0 1
    (by decide)

/-- C10: `spawn` behaves exactly as `try_spawn` followed by unwrapping
with `expect`: the two agree on the creator's events, an `Ok` handle is
returned unchanged, an `Err` becomes a panic with the message
`"Spawning failed"`; and `try_spawn f` is definitionally
`thread::Builder::new().spawn_init(f)`. -/
theorem claim10_spawn_refines_try_spawn (T : Type) (fails : Bool)
    (fOut : Outcome (Outcome T)) :
    try_spawn fails fOut = Builder.new.spawn_init fails fOut ∧
    spawn fails fOut =
      ((try_spawn fails fOut).1,
        expectMsg spawningFailedMsg (try_spawn fails fOut).2) ∧
    (∀ h : JoinHandle T,
        (try_spawn fails fOut).2 = .ok h → (spawn fails fOut).2 = .ok h) ∧
    (∀ e : CreationError,
        (try_spawn fails fOut).2 = .error e →
          (spawn fails fOut).2 = Outcome.panicked "Spawning failed") := by
  refine ⟨rfl, rfl, ?_, ?_⟩
  · intro h hh
    simp [spawn, expectMsg, hh]
  · intro e hh
    simp [spawn, expectMsg, hh, spawningFailedMsg]

/-- Witness for C10: both branches at concrete inputs — a successful
creation hands back the identical handle, a failed creation panics with
the diagnostic message. -/
theorem claim10_spawn_refines_try_spawn_witness :
    (spawn (T := Nat) false (Outcome.ok (Outcome.ok 7))).2 = .ok ⟨Outcome.ok 7⟩ ∧
    (spawn (T := Nat) true (Outcome.ok (Outcome.ok 7))).2 =
      Outcome.panicked "Spawning failed" :=
  ⟨(claim10_spawn_refines_try_spawn Nat false (Outcome.ok (Outcome.ok 7))).2.2.1
      ⟨Outcome.ok 7⟩ rfl,
    (claim10_spawn_refines_try_spawn Nat true (Outcome.ok (Outcome.ok 7))).2.2.2
      .osError rfl⟩

end ThreadInit
